import Mathlib

/-!
Verification of the FastAPI calculator backend: a shallow embedding of the
authentication routes (src/app/api/auth.py) and the calculation routes
(src/app/api/calculations.py), together with the parts of the User and
Calculation models that those routes call.  The relational store is modelled
as an insertion-ordered list of records, per the specification's treatment of
the persistence layer as a generic record store with filter-by-field lookup.
Time instants are naturals (seconds); request handlers take the current
instant explicitly.  Fallible handlers return `Except ApiError r`; by the
transactional-rollback convention an `error` result leaves the store
unchanged (the handler returns no new store in that case).
-/

namespace CalcApi

/-- Arithmetic operations of a calculation record (fixed enumerated set). -/
inductive Operation where
  | add
  | subtract
  | multiply
  | divide
deriving DecidableEq, Repr

/-- A user row: identity, credential hash, lifecycle flags and the stored
single-use tokens with their expiry instants. -/
structure UserRec where
  uid : Nat
  username : String
  email : String
  password : String
  first_name : String
  is_active : Bool
  is_verified : Bool
  verification_token : Option String
  verification_token_expires : Option Nat
  reset_token : Option String
  reset_token_expires : Option Nat
deriving DecidableEq, Repr

/-- A calculation row: owner reference, operation, operands and the derived
result (absent until `calculate` has run). -/
structure CalcRec where
  cid : Nat
  user_id : Nat
  operation : Operation
  operand1 : Rat
  operand2 : Rat
  result : Option Rat
deriving DecidableEq, Repr

/-- The record store: insertion-ordered lists of user and calculation rows. -/
structure DB where
  users : List UserRec
  calcs : List CalcRec
deriving DecidableEq, Repr

/-- Error taxonomy of the HTTP layer, carrying the `detail` string. -/
inductive ApiError where
  | badRequest (detail : String)
  | unauthorized (detail : String)
  | forbidden (detail : String)
  | notFound (detail : String)
deriving DecidableEq, Repr

/-- HTTP status code of each error class. -/
def ApiError.status : ApiError → Nat
  | .badRequest _ => 400
  | .unauthorized _ => 401
  | .forbidden _ => 403
  | .notFound _ => 404

/-- Configured access-token lifetime (ACCESS_TOKEN_EXPIRE_MINUTES = 30),
in seconds. -/
def ACCESS_TOKEN_EXPIRE_SECONDS : Nat := 30 * 60

/-- Configured refresh-token lifetime (REFRESH_TOKEN_EXPIRE_DAYS = 7),
in seconds. -/
def REFRESH_TOKEN_EXPIRE_SECONDS : Nat := 7 * 24 * 3600

/-- Configured verification-token lifetime (EMAIL_VERIFICATION_EXPIRE_HOURS =
24), in seconds. -/
def EMAIL_VERIFICATION_EXPIRE_SECONDS : Nat := 24 * 3600

/-- Configured reset-token lifetime (PASSWORD_RESET_EXPIRE_MINUTES = 60),
in seconds. -/
def PASSWORD_RESET_EXPIRE_SECONDS : Nat := 60 * 60

/-- Modelled from the spec: the Credential Hasher (`User.hash_password` in the
user model, which is not among the provided sources).  One-way hashing is
modelled as an injective tagging function; only the round-trip property
`verify_password p (hash_password p) = true` matters to the routes. -/
def hash_password (plain : String) : String := "bcrypt$" ++ plain

/-- Modelled from the spec: password verification against a stored hash. -/
def verify_password (plain stored : String) : Bool := hash_password plain == stored

/-- Kind discriminator of a signed token (access or refresh). -/
inductive TokenKind where
  | access
  | refresh
deriving DecidableEq, Repr

/-- Modelled from the spec: a signed, self-describing token of the Token
Issuer, encoding subject identity, kind and expiry.  `signature_valid` models
whether the presented string carries a valid signature. -/
structure Token where
  sub : Nat
  kind : TokenKind
  expires_at : Nat
  signature_valid : Bool
deriving DecidableEq, Repr

/-- Modelled from the spec: `User.create_access_token` — issues an access
token for the subject expiring after the configured access ttl. -/
def create_access_token (uid now : Nat) : Token :=
  { sub := uid, kind := .access, expires_at := now + ACCESS_TOKEN_EXPIRE_SECONDS,
    signature_valid := true }

/-- Modelled from the spec: `User.create_refresh_token` — issues a refresh
token for the subject expiring after the configured refresh ttl. -/
def create_refresh_token (uid now : Nat) : Token :=
  { sub := uid, kind := .refresh, expires_at := now + REFRESH_TOKEN_EXPIRE_SECONDS,
    signature_valid := true }

/-- Modelled from the spec: `User.verify_token` as used by the refresh route —
verifies the signature, requires refresh kind, fails when past expiry;
returns the subject id on success. -/
def verify_token (t : Token) (now : Nat) : Option Nat :=
  if t.signature_valid && t.kind == .refresh && now < t.expires_at then some t.sub else none

/-- A stored opaque token is usable while its recorded expiry has not passed;
a token with no recorded expiry is unusable. -/
def tokenNotExpired (expires : Option Nat) (now : Nat) : Bool :=
  match expires with
  | some e => now ≤ e
  | none => false

/-- Modelled from the spec: `user.verify_reset_token` — the stored reset token
must match and must not be past its expiry. -/
def UserRec.verify_reset_token (u : UserRec) (token : String) (now : Nat) : Bool :=
  (u.reset_token == some token) && tokenNotExpired u.reset_token_expires now

/-- Modelled from the spec: `user.verify_email_token` succeeds exactly when
the stored verification token matches and is not past its expiry. -/
def UserRec.verify_email_token (u : UserRec) (token : String) (now : Nat) : Bool :=
  (u.verification_token == some token) && tokenNotExpired u.verification_token_expires now

/-- ORM-style in-place mutation: rewrite every user row carrying `uid`. -/
def updateUser (db : DB) (uid : Nat) (f : UserRec → UserRec) : DB :=
  { db with users := db.users.map (fun u => if u.uid == uid then f u else u) }

/-- Lookup used by `User.authenticate`: first user matching the identifier as
username or as email. -/
def findUserByUsernameOrEmail (db : DB) (ident : String) : Option UserRec :=
  db.users.find? (fun u => u.username == ident || u.email == ident)

/-- What `User.authenticate` hands back to the login route on success. -/
structure AuthResult where
  user : UserRec
  access_token : Token
  refresh_token : Token
  token_type : String
  expires_at : Nat
deriving DecidableEq, Repr

/-- Modelled from the spec: `User.authenticate` — looks the user up by
username or email and checks the password, returning `none` on not-found and
on mismatch alike; on a match it issues the access/refresh pair.  The
verified/active checks are performed afterwards by the login route itself
(src/app/api/auth.py lines 236-248), so they are not part of this step. -/
def authenticate (db : DB) (ident password : String) (now : Nat) : Option AuthResult :=
  match findUserByUsernameOrEmail db ident with
  | none => none
  | some u =>
    if verify_password password u.password then
      some { user := u
             access_token := create_access_token u.uid now
             refresh_token := create_refresh_token u.uid now
             token_type := "bearer"
             expires_at := now + ACCESS_TOKEN_EXPIRE_SECONDS }
    else none

/-- Body of a successful login/refresh response. -/
structure TokenResponse where
  access_token : Token
  refresh_token : Token
  token_type : String
  expires_at : Nat
  user : UserRec
deriving DecidableEq, Repr

/-- Detail string of the generic bad-credentials failure. -/
def InvalidCredentialsDetail : String := "Incorrect username or password"

/-- Detail string of the unverified-email failure. -/
def EmailNotVerifiedDetail : String :=
  "Please verify your email before logging in. Check your inbox for the verification link."

/-- Detail string of the inactive-account failure. -/
def AccountInactiveDetail : String := "Account is inactive. Please contact support."

/-- POST /api/auth/login (src/app/api/auth.py lines 202-258): authenticate,
then require a verified email, then an active account, then return the token
pair. -/
def login (db : DB) (ident password : String) (now : Nat) :
    Except ApiError TokenResponse :=
  match authenticate db ident password now with
  | none => .error (.unauthorized InvalidCredentialsDetail)
  | some auth =>
    if !auth.user.is_verified then
      .error (.forbidden EmailNotVerifiedDetail)
    else if !auth.user.is_active then
      .error (.forbidden AccountInactiveDetail)
    else
      .ok { access_token := auth.access_token
            refresh_token := auth.refresh_token
            token_type := auth.token_type
            expires_at := auth.expires_at
            user := auth.user }

/-- The row mutation performed by a successful email verification: set
`is_verified` and clear the stored verification token and its expiry. -/
def markVerified (u : UserRec) : UserRec :=
  { u with is_verified := true, verification_token := none,
           verification_token_expires := none }

/-- GET /api/auth/verify-email (src/app/api/auth.py lines 100-151): look the
user up by stored verification token (400 when absent), check expiry via
`verify_email_token` (400 when expired), then mark verified and clear the
token fields; returns the new store and the verified email. -/
def verify_email (db : DB) (token : String) (now : Nat) :
    Except ApiError (DB × String) :=
  match db.users.find? (fun u => u.verification_token == some token) with
  | none => .error (.badRequest "Invalid verification token")
  | some u =>
    if u.verify_email_token token now then
      .ok (updateUser db u.uid markVerified, u.email)
    else
      .error (.badRequest "Verification token has expired. Please request a new one.")

/-- Generic success message of resend-verification for an unknown email. -/
def ResendGenericMessage : String := "If the email exists, a verification link has been sent."

/-- Success message of resend-verification for an existing unverified email. -/
def ResendSentMessage : String := "Verification email sent successfully"

/-- POST /api/auth/resend-verification (src/app/api/auth.py lines 154-199):
unknown email gets a generic success; an already-verified user gets a 400;
otherwise a fresh verification token and 24h expiry are stored.  `freshTok`
stands for the freshly generated random token. -/
def resend_verification_email (db : DB) (email freshTok : String) (now : Nat) :
    Except ApiError (DB × String) :=
  match db.users.find? (fun u => u.email == email) with
  | none => .ok (db, ResendGenericMessage)
  | some u =>
    if u.is_verified then
      .error (.badRequest "Email is already verified")
    else
      .ok (updateUser db u.uid (fun v =>
             { v with verification_token := some freshTok,
                      verification_token_expires :=
                        some (now + EMAIL_VERIFICATION_EXPIRE_SECONDS) }),
           ResendSentMessage)

/-- Generic success message of forgot-password, returned in every case. -/
def ForgotGenericMessage : String := "If the email exists, a password reset link has been sent."

/-- The row mutation performed by forgot-password on an existing user: store
the fresh reset token and its expiry (1h). -/
def setResetToken (freshTok : String) (now : Nat) (u : UserRec) : UserRec :=
  { u with reset_token := some freshTok,
           reset_token_expires := some (now + PASSWORD_RESET_EXPIRE_SECONDS) }

/-- POST /api/auth/forgot-password (src/app/api/auth.py lines 341-377): never
fails; unknown email leaves the store untouched, an existing user gets a
fresh reset token and expiry; the message is the same either way. -/
def forgot_password (db : DB) (email freshTok : String) (now : Nat) : DB × String :=
  match db.users.find? (fun u => u.email == email) with
  | none => (db, ForgotGenericMessage)
  | some u => (updateUser db u.uid (setResetToken freshTok now), ForgotGenericMessage)

/-- The row mutation performed by a successful password reset: store the new
hash and clear the reset token and its expiry. -/
def applyPasswordReset (newHash : String) (u : UserRec) : UserRec :=
  { u with password := newHash, reset_token := none, reset_token_expires := none }

/-- Success message of reset-password. -/
def ResetSuccessMessage : String :=
  "Password reset successfully. You can now log in with your new password."

/-- POST /api/auth/reset-password (src/app/api/auth.py lines 380-429): look
the user up by stored reset token (400 invalid when absent), check expiry
(400 expired), require at least 6 password characters (400 weak), then store
the new hash and clear the token fields. -/
def reset_password (db : DB) (token new_password : String) (now : Nat) :
    Except ApiError (DB × String) :=
  match db.users.find? (fun u => u.reset_token == some token) with
  | none => .error (.badRequest "Invalid reset token")
  | some u =>
    if !(u.verify_reset_token token now) then
      .error (.badRequest "Reset token has expired. Please request a new one.")
    else if new_password.length < 6 then
      .error (.badRequest "Password must be at least 6 characters long")
    else
      .ok (updateUser db u.uid (applyPasswordReset (hash_password new_password)),
           ResetSuccessMessage)

/-- POST /api/auth/refresh (src/app/api/auth.py lines 261-309): verify the
presented token (401 invalid on bad signature, wrong kind or expiry), look
the subject up (401 when missing or inactive), then issue a fresh
access/refresh pair. -/
def refresh_token (db : DB) (tok : Token) (now : Nat) :
    Except ApiError TokenResponse :=
  match verify_token tok now with
  | none => .error (.unauthorized "Invalid refresh token")
  | some uid =>
    match db.users.find? (fun u => u.uid == uid) with
    | none => .error (.unauthorized "User not found or inactive")
    | some u =>
      if !u.is_active then
        .error (.unauthorized "User not found or inactive")
      else
        .ok { access_token := create_access_token uid now
              refresh_token := create_refresh_token uid now
              token_type := "bearer"
              expires_at := now + ACCESS_TOKEN_EXPIRE_SECONDS
              user := u }

/-- The arithmetic the specification requires of a stored result: the pure
function `f(operation, operand1, operand2)`. -/
def fSpec (op : Operation) (a b : Rat) : Rat :=
  match op with
  | .add => a + b
  | .subtract => a - b
  | .multiply => a * b
  | .divide => a / b

/-- Detail string of the divide-by-zero rejection. -/
def DivisionByZeroDetail : String := "Division by zero is not allowed"

/-- Modelled from the spec: `Calculation.calculate` (the calculation model is
not among the provided sources) — computes the result eagerly from the
current operation and operands, rejecting division by zero. -/
def CalcRec.calculate (c : CalcRec) : Except String CalcRec :=
  match c.operation with
  | .add => .ok { c with result := some (c.operand1 + c.operand2) }
  | .subtract => .ok { c with result := some (c.operand1 - c.operand2) }
  | .multiply => .ok { c with result := some (c.operand1 * c.operand2) }
  | .divide =>
    if c.operand2 = 0 then .error DivisionByZeroDetail
    else .ok { c with result := some (c.operand1 / c.operand2) }

/-- POST /api/calculations (src/app/api/calculations.py lines 29-61): build
the row scoped to the requesting user, compute the result eagerly, then
append it to the store.  A calculate failure surfaces as a 400 rejection
before anything is persisted.  `freshId` stands for the generated row id. -/
def create_calculation (db : DB) (uid : Nat) (op : Operation) (a b : Rat)
    (freshId : Nat) : Except ApiError (DB × CalcRec) :=
  let c : CalcRec :=
    { cid := freshId, user_id := uid, operation := op, operand1 := a,
      operand2 := b, result := none }
  match c.calculate with
  | .error msg => .error (.badRequest msg)
  | .ok c2 => .ok ({ db with calcs := db.calcs ++ [c2] }, c2)

/-- The requesting user's rows in insertion order (the owner filter shared by
every calculation route). -/
def ownedCalcs (db : DB) (uid : Nat) : List CalcRec :=
  db.calcs.filter (fun c => c.user_id == uid)

/-- GET /api/calculations (src/app/api/calculations.py lines 64-87): the
owner-filtered query with offset `skip` and the row limit. -/
def list_calculations (db : DB) (uid skip limit : Nat) : List CalcRec :=
  (((db.calcs.filter (fun c => c.user_id == uid)).drop skip).take limit)

/-- The owner-scoped row predicate of the single-row routes: id and owner
must both match. -/
def ownsCalc (uid cid : Nat) (c : CalcRec) : Bool :=
  c.cid == cid && c.user_id == uid

/-- GET /api/calculations/id (src/app/api/calculations.py lines 90-121): the
owner-scoped lookup, reporting absence as 404. -/
def get_calculation (db : DB) (uid cid : Nat) : Except ApiError CalcRec :=
  match db.calcs.find? (ownsCalc uid cid) with
  | none => .error (.notFound "Calculation not found")
  | some c => .ok c

/-- The partial update body: each field optional, absent fields untouched. -/
structure CalculationUpdate where
  operation : Option Operation
  operand1 : Option Rat
  operand2 : Option Rat
deriving DecidableEq, Repr

/-- Apply exactly the supplied fields of a partial update to a row. -/
def applyUpdate (c : CalcRec) (u : CalculationUpdate) : CalcRec :=
  { c with operation := u.operation.getD c.operation
           operand1 := u.operand1.getD c.operand1
           operand2 := u.operand2.getD c.operand2 }

/-- PUT /api/calculations/id (src/app/api/calculations.py lines 124-168):
owner-scoped lookup (404 on absence), apply the supplied fields, recompute
the result unconditionally, store the rewritten row. -/
def update_calculation (db : DB) (uid cid : Nat) (upd : CalculationUpdate) :
    Except ApiError (DB × CalcRec) :=
  match db.calcs.find? (ownsCalc uid cid) with
  | none => .error (.notFound "Calculation not found")
  | some c =>
    match (applyUpdate c upd).calculate with
    | .error msg => .error (.badRequest msg)
    | .ok c2 =>
      .ok ({ db with calcs := db.calcs.map (fun x => if ownsCalc uid cid x then c2 else x) },
           c2)

/-- DELETE /api/calculations/id (src/app/api/calculations.py lines 171-205):
owner-scoped lookup (404 on absence), then remove the found row. -/
def delete_calculation (db : DB) (uid cid : Nat) : Except ApiError DB :=
  match db.calcs.find? (ownsCalc uid cid) with
  | none => .error (.notFound "Calculation not found")
  | some _ => .ok { db with calcs := db.calcs.eraseP (ownsCalc uid cid) }

/-- The user object echoed inside the stats payload. -/
structure StatsUser where
  id : Nat
  username : String
  email : String
deriving DecidableEq, Repr

/-- The stats payload: total count, per-operation counts of the operations
present, and the requesting user's identity. -/
structure StatsResponse where
  total_calculations : Nat
  operations : List (Operation × Nat)
  user : StatsUser
deriving DecidableEq, Repr

/-- Number of the owner's rows carrying a given operation. -/
def countOp (db : DB) (uid : Nat) (op : Operation) : Nat :=
  (db.calcs.filter (fun c => c.user_id == uid && c.operation == op)).length

/-- GET /api/calculations/stats/summary (src/app/api/calculations.py lines
208-248): owner-scoped total, group-by-operation counts (operations with no
rows are absent, as in the SQL group-by), and the requesting user's id,
username and email. -/
def get_calculation_stats (db : DB) (u : UserRec) : StatsResponse :=
  { total_calculations := (db.calcs.filter (fun c => c.user_id == u.uid)).length
    operations :=
      (([Operation.add, .subtract, .multiply, .divide].filter
          (fun op => countOp db u.uid op != 0)).map
        (fun op => (op, countOp db u.uid op)))
    user := { id := u.uid, username := u.username, email := u.email } }

/-! ### Helper lemmas about `find?`, `filter` and `eraseP` over record lists -/

/-- Searching a mapped list agrees with searching the original list under a
pointwise-transported predicate. -/
theorem find?_map_of_pred {α : Type} (l : List α) (g : α → α) (p q : α → Bool)
    (h : ∀ x ∈ l, p (g x) = q x) :
    (l.map g).find? p = (l.find? q).map g := by
  induction l with
  | nil => rfl
  | cons a t ih =>
    have ha := h a (List.mem_cons_self a t)
    cases hq : q a with
    | true =>
      rw [List.map_cons, List.find?_cons_of_pos _ (by rw [ha, hq]),
          List.find?_cons_of_pos _ hq]
      rfl
    | false =>
      rw [List.map_cons, List.find?_cons_of_neg _ (by rw [ha, hq]; exact Bool.false_ne_true),
          List.find?_cons_of_neg _ (by rw [hq]; exact Bool.false_ne_true)]
      exact ih (fun x hx => h x (List.mem_cons_of_mem a hx))

/-- When a member satisfies the predicate and is the only member doing so,
`find?` returns it. -/
theorem find?_unique {α : Type} (l : List α) (q : α → Bool) (u : α)
    (hmem : u ∈ l) (hq : q u = true) (huniq : ∀ x ∈ l, q x = true → x = u) :
    l.find? q = some u := by
  induction l with
  | nil => cases hmem
  | cons a t ih =>
    cases hqa : q a with
    | true =>
      rw [List.find?_cons_of_pos _ hqa]
      exact congrArg some (huniq a (List.mem_cons_self a t) hqa)
    | false =>
      rw [List.find?_cons_of_neg _ (by rw [hqa]; exact Bool.false_ne_true)]
      have hut : u ∈ t := by
        rcases List.mem_cons.mp hmem with h | h
        · rw [h] at hq; rw [hq] at hqa; cases hqa
        · exact h
      exact ih hut (fun x hx h2 => huniq x (List.mem_cons_of_mem a hx) h2)

/-- Rewriting the first `p`-match of a list to a value that still satisfies
`p` makes `find? p` return that value. -/
theorem find?_replace_first {α : Type} (l : List α) (p : α → Bool) (c c2 : α)
    (hfind : l.find? p = some c) (hp2 : p c2 = true) :
    (l.map (fun x => if p x then c2 else x)).find? p = some c2 := by
  induction l with
  | nil => cases hfind
  | cons a t ih =>
    cases hpa : p a with
    | true =>
      rw [List.map_cons, if_pos hpa, List.find?_cons_of_pos _ hp2]
    | false =>
      rw [List.find?_cons_of_neg _ (by rw [hpa]; exact Bool.false_ne_true)] at hfind
      rw [List.map_cons, if_neg (by rw [hpa]; exact Bool.false_ne_true),
          List.find?_cons_of_neg _ (by rw [hpa]; exact Bool.false_ne_true)]
      exact ih hfind

/-- A map that fixes every `q`-element and never creates one leaves the
`q`-filter unchanged. -/
theorem filter_map_fixed {α : Type} (l : List α) (q : α → Bool) (g : α → α)
    (h : ∀ x ∈ l, (q x = true → g x = x) ∧ (q x = false → q (g x) = false)) :
    (l.map g).filter q = l.filter q := by
  induction l with
  | nil => rfl
  | cons a t ih =>
    have ha := h a (List.mem_cons_self a t)
    have ht := ih (fun x hx => h x (List.mem_cons_of_mem a hx))
    cases hqa : q a with
    | true =>
      rw [List.map_cons, List.filter_cons_of_pos (by rw [ha.1 hqa, hqa]),
          List.filter_cons_of_pos hqa, ha.1 hqa, ht]
    | false =>
      rw [List.map_cons, List.filter_cons_of_neg (by rw [ha.2 hqa]; exact Bool.false_ne_true),
          List.filter_cons_of_neg (by rw [hqa]; exact Bool.false_ne_true), ht]

/-- Erasing a `p`-element cannot change the `q`-filter when `p` and `q` are
disjoint. -/
theorem filter_eraseP_disjoint {α : Type} (l : List α) (p q : α → Bool)
    (h : ∀ x ∈ l, p x = true → q x = false) :
    (l.eraseP p).filter q = l.filter q := by
  induction l with
  | nil => rfl
  | cons a t ih =>
    have ht := ih (fun x hx hp => h x (List.mem_cons_of_mem a hx) hp)
    cases hpa : p a with
    | true =>
      rw [List.eraseP_cons_of_pos hpa,
          List.filter_cons_of_neg
            (by rw [h a (List.mem_cons_self a t) hpa]; exact Bool.false_ne_true)]
    | false =>
      rw [List.eraseP_cons_of_neg (by rw [hpa]; exact Bool.false_ne_true)]
      cases hqa : q a with
      | true =>
        rw [List.filter_cons_of_pos hqa, List.filter_cons_of_pos hqa, ht]
      | false =>
        rw [List.filter_cons_of_neg (by rw [hqa]; exact Bool.false_ne_true),
            List.filter_cons_of_neg (by rw [hqa]; exact Bool.false_ne_true), ht]

/-- A successful `calculate` preserves identity, operation and operands and
stores exactly the specification arithmetic in `result`. -/
theorem calculate_ok_spec (c c2 : CalcRec) (h : c.calculate = .ok c2) :
    c2.cid = c.cid ∧ c2.user_id = c.user_id ∧ c2.operation = c.operation ∧
    c2.operand1 = c.operand1 ∧ c2.operand2 = c.operand2 ∧
    c2.result = some (fSpec c.operation c.operand1 c.operand2) := by
  unfold CalcRec.calculate at h
  cases hop : c.operation <;> rw [hop] at h
  case add =>
    rw [Except.ok.injEq] at h
    subst h
    simp [fSpec, hop]
  case subtract =>
    rw [Except.ok.injEq] at h
    subst h
    simp [fSpec, hop]
  case multiply =>
    rw [Except.ok.injEq] at h
    subst h
    simp [fSpec, hop]
  case divide =>
    by_cases hz : c.operand2 = 0
    · rw [if_pos hz] at h; cases h
    · rw [if_neg hz, Except.ok.injEq] at h
      subst h
      simp [fSpec, hop]

/-! ### Demo records used by the witnesses -/

/-- A verified, active demo user. -/
def demoAlice : UserRec :=
  { uid := 1, username := "alice", email := "alice@example.com",
    password := hash_password "wonderland", first_name := "Alice",
    is_active := true, is_verified := true,
    verification_token := none, verification_token_expires := none,
    reset_token := none, reset_token_expires := none }

/-- A store holding only the verified demo user. -/
def loginDemoDB : DB := { users := [demoAlice], calcs := [] }

/-- Helper building a calculation row with a stored result. -/
def calcRow (cid user_id : Nat) (op : Operation) (a b r : Rat) : CalcRec :=
  { cid := cid, user_id := user_id, operation := op, operand1 := a,
    operand2 := b, result := some r }

/-- A store with calculation rows of two different owners. -/
def listDemoDB : DB :=
  { users := [],
    calcs := [calcRow 1 1 .add 1 2 3, calcRow 2 2 .add 1 1 2,
              calcRow 3 1 .multiply 2 3 6, calcRow 4 1 .divide 6 2 3] }

/-- The empty store. -/
def emptyDB : DB := { users := [], calcs := [] }

/-! ### The claims -/

/-- Claim C5: `login` fails with the identical 401 `InvalidCredentials`
error — same status, same detail string — both when no user matches the
presented username/email and when a user matches but the password does not
verify, so the caller cannot distinguish the two cases. -/
theorem C5_login_error_indistinguishable (db : DB) (ident password : String) (now : Nat)
    (h : findUserByUsernameOrEmail db ident = none ∨
      ∃ u, findUserByUsernameOrEmail db ident = some u ∧
        verify_password password u.password = false) :
    login db ident password now = .error (.unauthorized InvalidCredentialsDetail) := by
  rcases h with h | ⟨u, hu, hpw⟩
  · simp [login, authenticate, h]
  · simp [login, authenticate, hu, hpw]

/-- Witness for C5: in a concrete store, an unknown username and a wrong
password for the existing user produce the very same error value. -/
theorem C5_login_error_indistinguishable_witness :
    login loginDemoDB "mallory" "hunter2" 0 = .error (.unauthorized InvalidCredentialsDetail) ∧
    login loginDemoDB "alice" "hunter2" 0 = .error (.unauthorized InvalidCredentialsDetail) :=
  ⟨C5_login_error_indistinguishable loginDemoDB "mallory" "hunter2" 0 (Or.inl rfl),
   C5_login_error_indistinguishable loginDemoDB "alice" "hunter2" 0
     (Or.inr ⟨demoAlice, rfl, rfl⟩)⟩

/-- Claim C10: the stats payload always echoes the requesting user's id,
username and email in its `user` object, in addition to the owner-scoped
total calculation count. -/
theorem C10_stats_echo_user (db : DB) (u : UserRec) :
    (get_calculation_stats db u).user =
      { id := u.uid, username := u.username, email := u.email } ∧
    (get_calculation_stats db u).total_calculations = (ownedCalcs db u.uid).length :=
  ⟨rfl, rfl⟩

/-- Claim C9: `list_calculations` returns only the owner's rows, and with
offset `skip` and row limit `limit` the element at position `i` is the
owner's row at position `skip + i` of the insertion-ordered store; the
result is exactly the `take`/`drop` window of the owner's rows. -/
theorem C9_list_owner_pagination (db : DB) (uid skip limit : Nat) :
    (∀ c ∈ list_calculations db uid skip limit, c.user_id = uid) ∧
    (∀ i : Nat, i < limit →
      (list_calculations db uid skip limit)[i]? = (ownedCalcs db uid)[skip + i]?) ∧
    list_calculations db uid skip limit = ((ownedCalcs db uid).drop skip).take limit := by
  refine ⟨?_, ?_, rfl⟩
  · intro c hc
    have h1 : c ∈ db.calcs.filter (fun c => c.user_id == uid) :=
      List.mem_of_mem_drop (List.mem_of_mem_take hc)
    have h2 := (List.mem_filter.mp h1).2
    simpa using h2
  · intro i hi
    unfold list_calculations ownedCalcs
    rw [List.getElem?_take_of_lt hi, List.getElem?_drop]

/-- Witness for C9: in the concrete store, page `skip = 1`, `limit = 2` of
owner 1 starts at the owner's second row. -/
theorem C9_list_owner_pagination_witness :
    0 < 2 ∧
    (list_calculations listDemoDB 1 1 2)[0]? = (ownedCalcs listDemoDB 1)[1 + 0]? :=
  ⟨by decide, (C9_list_owner_pagination listDemoDB 1 1 2).2.1 0 (by decide)⟩

/-- Claim C7: `create_calculation` with operation divide and zero second
operand is rejected with the 400 `DivisionByZero` detail and nothing is
appended to the store (the error carries no new store); every other create
succeeds with the result computed eagerly from the operands before
persistence, the new row being appended owner-scoped. -/
theorem C7_create_divide_by_zero (db : DB) (uid : Nat) (op : Operation) (a b : Rat)
    (freshId : Nat) :
    (op = .divide ∧ b = 0 →
      create_calculation db uid op a b freshId = .error (.badRequest DivisionByZeroDetail)) ∧
    (¬(op = .divide ∧ b = 0) →
      create_calculation db uid op a b freshId =
        .ok ({ db with calcs := db.calcs ++
                 [{ cid := freshId, user_id := uid, operation := op, operand1 := a,
                    operand2 := b, result := some (fSpec op a b) }] },
             { cid := freshId, user_id := uid, operation := op, operand1 := a,
               operand2 := b, result := some (fSpec op a b) })) := by
  constructor
  · rintro ⟨rfl, rfl⟩
    rfl
  · intro h
    cases op with
    | divide =>
      have hb : ¬b = 0 := fun hb => h ⟨rfl, hb⟩
      simp [create_calculation, CalcRec.calculate, if_neg hb, fSpec]
    | add => simp [create_calculation, CalcRec.calculate, fSpec]
    | subtract => simp [create_calculation, CalcRec.calculate, fSpec]
    | multiply => simp [create_calculation, CalcRec.calculate, fSpec]

/-- Witness for C7: dividing 5 by 0 is rejected with the 400 detail, while
adding 2 and 3 persists a row with the eagerly computed result. -/
theorem C7_create_divide_by_zero_witness :
    create_calculation emptyDB 1 .divide 5 0 9 = .error (.badRequest DivisionByZeroDetail) ∧
    create_calculation emptyDB 1 .add 2 3 9 =
      .ok ({ emptyDB with calcs := emptyDB.calcs ++
               [{ cid := 9, user_id := 1, operation := .add, operand1 := 2,
                  operand2 := 3, result := some (fSpec .add 2 3) }] },
           { cid := 9, user_id := 1, operation := .add, operand1 := 2,
             operand2 := 3, result := some (fSpec .add 2 3) }) :=
  ⟨(C7_create_divide_by_zero emptyDB 1 .divide 5 0 9).1 ⟨rfl, rfl⟩,
   (C7_create_divide_by_zero emptyDB 1 .add 2 3 9).2 (by decide)⟩

/-- Claim C4: whenever `update_calculation` succeeds — whatever subset of
fields the partial update supplies — the returned row and the row stored in
the resulting store satisfy `result = f(operation, operand1, operand2)`:
the result is recomputed unconditionally from the current operation and
operands. -/
theorem C4_update_recomputes_result (db : DB) (uid cid : Nat) (upd : CalculationUpdate)
    (db2 : DB) (c2 : CalcRec)
    (h : update_calculation db uid cid upd = .ok (db2, c2)) :
    c2.result = some (fSpec c2.operation c2.operand1 c2.operand2) ∧
    db2.calcs.find? (ownsCalc uid cid) = some c2 := by
  unfold update_calculation at h
  split at h
  · cases h
  · rename_i c hfind
    split at h
    · cases h
    · rename_i c2x hcalc
      rw [Except.ok.injEq, Prod.mk.injEq] at h
      obtain ⟨hdb2, hc2⟩ := h
      subst hc2
      subst hdb2
      obtain ⟨h1, h2, h3, h4, h5, h6⟩ := calculate_ok_spec (applyUpdate c upd) c2x hcalc
      constructor
      · rw [h3, h4, h5]
        exact h6
      · refine find?_replace_first db.calcs (ownsCalc uid cid) c c2x hfind ?_
        have hc := List.find?_some hfind
        unfold ownsCalc at hc ⊢
        rw [h1, h2]
        exact hc

/-- Rows not owned by a given user (the rows an owner-scoped request must
never return or mutate). -/
def notOwnedBy (uid : Nat) (c : CalcRec) : Bool := c.user_id != uid

/-- Claim C3: calculation reads, updates and deletes are ownership-scoped:
when no row carries the requested id or the row with that id belongs to a
different user, `get`, `update` and `delete` all fail with the same 404
`Calculation not found`; a successful `get` only ever returns the
requester's own row, and successful `update`/`delete` leave every other
user's rows untouched. -/
theorem C3_ownership_scoped (db : DB) (uid cid : Nat) (upd : CalculationUpdate) :
    ((∀ c ∈ db.calcs, c.cid = cid → c.user_id ≠ uid) →
      get_calculation db uid cid = .error (.notFound "Calculation not found") ∧
      update_calculation db uid cid upd = .error (.notFound "Calculation not found") ∧
      delete_calculation db uid cid = .error (.notFound "Calculation not found")) ∧
    (∀ c2, get_calculation db uid cid = .ok c2 → c2.user_id = uid) ∧
    (∀ db2 c2, update_calculation db uid cid upd = .ok (db2, c2) →
      c2.user_id = uid ∧
      db2.calcs.filter (notOwnedBy uid) = db.calcs.filter (notOwnedBy uid)) ∧
    (∀ db2, delete_calculation db uid cid = .ok db2 →
      db2.calcs.filter (notOwnedBy uid) = db.calcs.filter (notOwnedBy uid)) := by
  refine ⟨?_, ?_, ?_, ?_⟩
  · intro hno
    have hnone : db.calcs.find? (ownsCalc uid cid) = none := by
      rw [List.find?_eq_none]
      intro x hx hpx
      unfold ownsCalc at hpx
      rw [Bool.and_eq_true, beq_iff_eq, beq_iff_eq] at hpx
      exact hno x hx hpx.1 hpx.2
    exact ⟨by simp [get_calculation, hnone], by simp [update_calculation, hnone],
           by simp [delete_calculation, hnone]⟩
  · intro c2 hg
    unfold get_calculation at hg
    split at hg
    · cases hg
    · rename_i c hfind
      rw [Except.ok.injEq] at hg
      subst hg
      have hc := List.find?_some hfind
      unfold ownsCalc at hc
      rw [Bool.and_eq_true, beq_iff_eq, beq_iff_eq] at hc
      exact hc.2
  · intro db2 c2 hu
    unfold update_calculation at hu
    split at hu
    · cases hu
    · rename_i c hfind
      split at hu
      · cases hu
      · rename_i c2x hcalc
        rw [Except.ok.injEq, Prod.mk.injEq] at hu
        obtain ⟨hdb2, hc2⟩ := hu
        subst hc2
        subst hdb2
        have hc := List.find?_some hfind
        unfold ownsCalc at hc
        rw [Bool.and_eq_true, beq_iff_eq, beq_iff_eq] at hc
        obtain ⟨h1, h2, h3, h4, h5, h6⟩ := calculate_ok_spec (applyUpdate c upd) c2x hcalc
        have huser : c2x.user_id = uid := by rw [h2]; exact hc.2
        refine ⟨huser, ?_⟩
        refine filter_map_fixed db.calcs (notOwnedBy uid) _ (fun x hx => ⟨?_, ?_⟩)
        · intro hqx
          have hxu : (x.user_id == uid) = false := by
            unfold notOwnedBy at hqx
            rw [bne, Bool.not_eq_true'] at hqx
            exact hqx
          have : ownsCalc uid cid x = false := by
            unfold ownsCalc
            rw [hxu, Bool.and_false]
          simp [this]
        · intro hqx
          by_cases hox : ownsCalc uid cid x = true
          · simp only [hox, if_true]
            unfold notOwnedBy
            rw [bne, Bool.not_eq_false', beq_iff_eq]
            exact huser
          · rw [Bool.not_eq_true] at hox
            simp [hox, hqx]
  · intro db2 hd
    unfold delete_calculation at hd
    split at hd
    · cases hd
    · rename_i c hfind
      rw [Except.ok.injEq] at hd
      subst hd
      refine filter_eraseP_disjoint db.calcs (ownsCalc uid cid) (notOwnedBy uid)
        (fun x hx hpx => ?_)
      unfold ownsCalc at hpx
      rw [Bool.and_eq_true] at hpx
      unfold notOwnedBy
      rw [bne, Bool.not_eq_false']
      exact hpx.2

/-- Witness for C3: in the concrete store, user 3 requesting row 2 (which
belongs to user 2) gets 404 from all three single-row routes. -/
theorem C3_ownership_scoped_witness :
    get_calculation listDemoDB 3 2 = .error (.notFound "Calculation not found") ∧
    update_calculation listDemoDB 3 2
        { operation := none, operand1 := none, operand2 := none } =
      .error (.notFound "Calculation not found") ∧
    delete_calculation listDemoDB 3 2 = .error (.notFound "Calculation not found") :=
  (C3_ownership_scoped listDemoDB 3 2
    { operation := none, operand1 := none, operand2 := none }).1 (by decide)

/-- Concrete row updated by the C4 witness. -/
def updDemoDB : DB := { users := [], calcs := [calcRow 1 1 .add 1 2 3] }

/-- Partial update supplying only the operation field. -/
def updDemoUpd : CalculationUpdate :=
  { operation := some .multiply, operand1 := none, operand2 := none }

/-- Row after the C4 witness update: result recomputed as a product. -/
def updDemoRow2 : CalcRec :=
  { cid := 1, user_id := 1, operation := .multiply, operand1 := 1, operand2 := 2,
    result := some ((1 : Rat) * 2) }

/-- Store after the C4 witness update. -/
def updDemoDB2 : DB := { users := [], calcs := [updDemoRow2] }

/-- Witness for C4: updating only the operation of a concrete row leaves
`result` equal to the recomputed product, both returned and stored. -/
theorem C4_update_recomputes_result_witness :
    updDemoRow2.result =
      some (fSpec updDemoRow2.operation updDemoRow2.operand1 updDemoRow2.operand2) ∧
    updDemoDB2.calcs.find? (ownsCalc 1 1) = some updDemoRow2 :=
  C4_update_recomputes_result updDemoDB 1 1 updDemoUpd updDemoDB2 updDemoRow2 rfl

/-- An unverified, active demo user holding a verification token. -/
def demoBob : UserRec :=
  { uid := 2, username := "bob", email := "bob@example.com",
    password := hash_password "builder", first_name := "Bob",
    is_active := true, is_verified := false,
    verification_token := some "vtok-bob", verification_token_expires := some 86400,
    reset_token := none, reset_token_expires := none }

/-- Store holding one unverified and one verified user. -/
def resendDemoDB : DB := { users := [demoBob, demoAlice], calcs := [] }

/-- The unverified demo user after resend-verification stored a fresh token
at instant 0. -/
def demoBobResent : UserRec :=
  { demoBob with verification_token := some "t1",
                 verification_token_expires := some (0 + EMAIL_VERIFICATION_EXPIRE_SECONDS) }

/-- Store after resend-verification for the unverified demo user. -/
def resendDemoDBAfter : DB := { users := [demoBobResent, demoAlice], calcs := [] }

/-- Counterexample to C6 as stated: resend-verification does not always
return a generic success shape — an existing unverified email yields a
success message different from the one an unknown email yields, and an
already-verified email yields a 400 error, so the response distinguishes
whether the target account exists. -/
theorem C6_counterexample :
    resend_verification_email resendDemoDB "ghost@example.com" "t1" 0 =
      .ok (resendDemoDB, ResendGenericMessage) ∧
    resend_verification_email resendDemoDB "bob@example.com" "t1" 0 =
      .ok (resendDemoDBAfter, ResendSentMessage) ∧
    ResendSentMessage ≠ ResendGenericMessage ∧
    resend_verification_email resendDemoDB "alice@example.com" "t1" 0 =
      .error (.badRequest "Email is already verified") :=
  ⟨rfl, rfl, by decide, rfl⟩

/-- Claim C6 (amended): forgot-password always returns the same generic
success message whether or not the email exists; resend-verification
returns the generic success shape only when the target email does not
exist. -/
theorem C6_anti_enumeration_amended (db : DB) (email freshTok : String) (now : Nat) :
    (forgot_password db email freshTok now).2 = ForgotGenericMessage ∧
    (db.users.find? (fun u => u.email == email) = none →
      resend_verification_email db email freshTok now = .ok (db, ResendGenericMessage)) := by
  constructor
  · unfold forgot_password
    split
    · rfl
    · rfl
  · intro h
    simp [resend_verification_email, h]

/-- Witness for C6 (amended): concrete unknown email gets the generic
messages from both endpoints. -/
theorem C6_anti_enumeration_amended_witness :
    (forgot_password loginDemoDB "ghost@example.com" "t2" 5).2 = ForgotGenericMessage ∧
    resend_verification_email loginDemoDB "ghost@example.com" "t2" 5 =
      .ok (loginDemoDB, ResendGenericMessage) :=
  ⟨(C6_anti_enumeration_amended loginDemoDB "ghost@example.com" "t2" 5).1,
   (C6_anti_enumeration_amended loginDemoDB "ghost@example.com" "t2" 5).2 rfl⟩

/-- Claim C8: the refresh route verifies the presented token as a
refresh-kind token — a bad signature, a non-refresh kind or a past expiry
all yield a 401 — and a 401 also results when the referenced user no longer
exists or is inactive; on success it issues a fresh access token and a
fresh refresh token pair for the subject. -/
theorem C8_refresh_token_flow (db : DB) (tok : Token) (now : Nat) :
    (tok.signature_valid = false ∨ tok.kind ≠ .refresh ∨ tok.expires_at ≤ now →
      refresh_token db tok now = .error (.unauthorized "Invalid refresh token")) ∧
    (∀ uid, verify_token tok now = some uid →
      (db.users.find? (fun u => u.uid == uid) = none →
        refresh_token db tok now = .error (.unauthorized "User not found or inactive")) ∧
      (∀ u, db.users.find? (fun w => w.uid == uid) = some u →
        (u.is_active = false →
          refresh_token db tok now = .error (.unauthorized "User not found or inactive")) ∧
        (u.is_active = true →
          refresh_token db tok now =
            .ok { access_token := create_access_token uid now
                  refresh_token := create_refresh_token uid now
                  token_type := "bearer"
                  expires_at := now + ACCESS_TOKEN_EXPIRE_SECONDS
                  user := u }))) := by
  constructor
  · intro h
    have hv : verify_token tok now = none := by
      unfold verify_token
      rcases h with h | h | h
      · simp [h]
      · have hk : (tok.kind == TokenKind.refresh) = false := by
          rw [beq_eq_false_iff_ne]
          exact h
        simp [hk]
      · simp [Nat.not_lt.mpr h]
    simp [refresh_token, hv]
  · intro uid hv
    constructor
    · intro hnone
      simp [refresh_token, hv, hnone]
    · intro u hu
      exact ⟨fun hina => by simp [refresh_token, hv, hu, hina],
             fun hact => by simp [refresh_token, hv, hu, hact]⟩

/-- A refresh-kind token for the verified demo user, expiring at instant
100. -/
def demoRefreshTok : Token :=
  { sub := 1, kind := .refresh, expires_at := 100, signature_valid := true }

/-- Witness for C8: presenting the demo token past its expiry yields the
401, presenting it in time yields the freshly issued pair. -/
theorem C8_refresh_token_flow_witness :
    refresh_token loginDemoDB demoRefreshTok 200 =
      .error (.unauthorized "Invalid refresh token") ∧
    refresh_token loginDemoDB demoRefreshTok 0 =
      .ok { access_token := create_access_token 1 0
            refresh_token := create_refresh_token 1 0
            token_type := "bearer"
            expires_at := 0 + ACCESS_TOKEN_EXPIRE_SECONDS
            user := demoAlice } :=
  ⟨(C8_refresh_token_flow loginDemoDB demoRefreshTok 200).1
     (Or.inr (Or.inr (by decide))),
   (((C8_refresh_token_flow loginDemoDB demoRefreshTok 0).2 1 rfl).2
      demoAlice rfl).2 rfl⟩

/-- An unverified, inactive demo user holding a verification token. -/
def demoDave : UserRec :=
  { uid := 4, username := "dave", email := "dave@example.com",
    password := hash_password "miner49er", first_name := "Dave",
    is_active := false, is_verified := false,
    verification_token := some "vtok-dave", verification_token_expires := some 100,
    reset_token := none, reset_token_expires := none }

/-- Store holding only the unverified inactive demo user. -/
def unverifiedInactiveDB : DB := { users := [demoDave], calcs := [] }

/-- The previous store after that user's email verification succeeded. -/
def unverifiedInactiveDB2 : DB := { users := [markVerified demoDave], calcs := [] }

/-- Counterexample to C1 as stated: for an inactive unverified user the
first half holds (403 with the unverified detail, no tokens issued), and
`verify_email` succeeds, but the same correct credentials still do not
authenticate afterwards — login fails 403 with the inactive-account
detail instead of succeeding. -/
theorem C1_counterexample :
    login unverifiedInactiveDB "dave" "miner49er" 0 =
      .error (.forbidden EmailNotVerifiedDetail) ∧
    verify_email unverifiedInactiveDB "vtok-dave" 0 =
      .ok (unverifiedInactiveDB2, "dave@example.com") ∧
    login unverifiedInactiveDB2 "dave" "miner49er" 0 =
      .error (.forbidden AccountInactiveDetail) :=
  ⟨rfl, rfl, rfl⟩

/-- Claim C1 (amended): a user whose `is_verified` flag is false can never
authenticate — every login whose credentials match such a user fails 403
with the unverified-email detail and no token pair is issued — and after
`verify_email` succeeds for that user the same credentials authenticate
successfully, provided the account is active (an inactive account instead
still fails 403). -/
theorem C1_unverified_never_authenticates (db : DB) (ident password tok : String)
    (now : Nat) (u : UserRec)
    (hfind : findUserByUsernameOrEmail db ident = some u)
    (hpw : verify_password password u.password = true)
    (hunv : u.is_verified = false)
    (hactive : u.is_active = true)
    (htok : db.users.find? (fun w => w.verification_token == some tok) = some u)
    (hexp : tokenNotExpired u.verification_token_expires now = true) :
    login db ident password now = .error (.forbidden EmailNotVerifiedDetail) ∧
    verify_email db tok now = .ok (updateUser db u.uid markVerified, u.email) ∧
    login (updateUser db u.uid markVerified) ident password now =
      .ok { access_token := create_access_token u.uid now
            refresh_token := create_refresh_token u.uid now
            token_type := "bearer"
            expires_at := now + ACCESS_TOKEN_EXPIRE_SECONDS
            user := markVerified u } := by
  have hvt := List.find?_some htok
  refine ⟨?_, ?_, ?_⟩
  · simp [login, authenticate, hfind, hpw, hunv]
  · unfold verify_email
    rw [htok]
    simp [UserRec.verify_email_token, hvt, hexp]
  · have hg : ∀ x ∈ db.users,
        (((fun w => if w.uid == u.uid then markVerified w else w) x).username == ident ||
          ((fun w => if w.uid == u.uid then markVerified w else w) x).email == ident) =
        (x.username == ident || x.email == ident) := by
      intro x hx
      by_cases hxu : (x.uid == u.uid) = true
      · simp [hxu, markVerified]
      · rw [Bool.not_eq_true] at hxu
        simp [hxu]
    have hfind2 := find?_map_of_pred db.users
      (fun w => if w.uid == u.uid then markVerified w else w)
      (fun w => w.username == ident || w.email == ident)
      (fun w => w.username == ident || w.email == ident) hg
    unfold findUserByUsernameOrEmail at hfind
    have hfind3 : findUserByUsernameOrEmail (updateUser db u.uid markVerified) ident =
        some (markVerified u) := by
      unfold findUserByUsernameOrEmail updateUser
      rw [hfind2, hfind]
      simp
    simp [login, authenticate, hfind3, markVerified, hpw, hactive]

/-- An unverified, active demo user holding a verification token. -/
def demoErin : UserRec :=
  { uid := 5, username := "erin", email := "erin@example.com",
    password := hash_password "sunshine", first_name := "Erin",
    is_active := true, is_verified := false,
    verification_token := some "vtok-erin", verification_token_expires := some 100,
    reset_token := none, reset_token_expires := none }

/-- Store holding only the unverified active demo user. -/
def unverifiedActiveDB : DB := { users := [demoErin], calcs := [] }

/-- Witness for C1 (amended): the concrete unverified active user first gets
the 403, then verifies, then the same credentials log in successfully. -/
theorem C1_unverified_never_authenticates_witness :
    login unverifiedActiveDB "erin" "sunshine" 0 =
      .error (.forbidden EmailNotVerifiedDetail) ∧
    verify_email unverifiedActiveDB "vtok-erin" 0 =
      .ok (updateUser unverifiedActiveDB 5 markVerified, "erin@example.com") ∧
    login (updateUser unverifiedActiveDB 5 markVerified) "erin" "sunshine" 0 =
      .ok { access_token := create_access_token 5 0
            refresh_token := create_refresh_token 5 0
            token_type := "bearer"
            expires_at := 0 + ACCESS_TOKEN_EXPIRE_SECONDS
            user := markVerified demoErin } :=
  C1_unverified_never_authenticates unverifiedActiveDB "erin" "sunshine" "vtok-erin" 0
    demoErin rfl rfl rfl rfl rfl rfl

/-- Claim C2: reset tokens are single-use.  For a user found by email and a
fresh token no row holds yet, `forgot_password` stores the token, a first
`reset_password` with it (before expiry, with an acceptable new password)
succeeds and clears the stored token and its expiry, and any second
`reset_password` with the same token fails 400 `Invalid reset token`. -/
theorem C2_reset_token_single_use (db : DB) (email tok pw : String) (now t2 : Nat)
    (u : UserRec)
    (hfind : db.users.find? (fun w => w.email == email) = some u)
    (huid : ∀ w ∈ db.users, w.uid = u.uid → w = u)
    (hfresh : ∀ w ∈ db.users, ¬w.reset_token = some tok)
    (hlen : ¬pw.length < 6)
    (htime : t2 ≤ now + PASSWORD_RESET_EXPIRE_SECONDS) :
    reset_password (forgot_password db email tok now).1 tok pw t2 =
      .ok (updateUser (updateUser db u.uid (setResetToken tok now)) u.uid
             (applyPasswordReset (hash_password pw)), ResetSuccessMessage) ∧
    (updateUser (updateUser db u.uid (setResetToken tok now)) u.uid
        (applyPasswordReset (hash_password pw))).users.find? (fun w => w.uid == u.uid) =
      some (applyPasswordReset (hash_password pw) (setResetToken tok now u)) ∧
    (∀ pw2 t3,
      reset_password
          (updateUser (updateUser db u.uid (setResetToken tok now)) u.uid
            (applyPasswordReset (hash_password pw))) tok pw2 t3 =
        .error (.badRequest "Invalid reset token")) := by
  have hdb1 : (forgot_password db email tok now).1 =
      updateUser db u.uid (setResetToken tok now) := by
    unfold forgot_password
    rw [hfind]
  have hu_mem := List.mem_of_find?_eq_some hfind
  have huidfind : db.users.find? (fun w => w.uid == u.uid) = some u :=
    find?_unique db.users _ u hu_mem (beq_self_eq_true u.uid)
      (fun x hx hq => huid x hx (by rwa [beq_iff_eq] at hq))
  have hfindtok1 : (updateUser db u.uid (setResetToken tok now)).users.find?
      (fun w => w.reset_token == some tok) = some (setResetToken tok now u) := by
    unfold updateUser
    rw [find?_map_of_pred db.users _ (fun w => w.reset_token == some tok)
          (fun w => w.uid == u.uid) ?_, huidfind]
    · simp
    · intro x hx
      by_cases hxu : (x.uid == u.uid) = true
      · simp [hxu, setResetToken]
      · rw [Bool.not_eq_true] at hxu
        simp only [hxu, Bool.false_eq_true, if_false]
        rw [beq_eq_false_iff_ne]
        exact hfresh x hx
  have hfirst : reset_password (updateUser db u.uid (setResetToken tok now)) tok pw t2 =
      .ok (updateUser (updateUser db u.uid (setResetToken tok now)) u.uid
             (applyPasswordReset (hash_password pw)), ResetSuccessMessage) := by
    unfold reset_password
    rw [hfindtok1]
    have hver : (setResetToken tok now u).verify_reset_token tok t2 = true := by
      unfold UserRec.verify_reset_token setResetToken tokenNotExpired
      simp [htime]
    have huid_proj : (setResetToken tok now u).uid = u.uid := rfl
    simp [hver, hlen, huid_proj]
  have hpres1 : ∀ x : UserRec,
      (((fun w => if w.uid == u.uid then setResetToken tok now w else w) x).uid == u.uid) =
      (x.uid == u.uid) := by
    intro x
    by_cases hxu : (x.uid == u.uid) = true
    · simp [hxu, setResetToken]
    · rw [Bool.not_eq_true] at hxu
      simp [hxu]
  have hpres2 : ∀ x : UserRec,
      (((fun w => if w.uid == u.uid then applyPasswordReset (hash_password pw) w else w)
          x).uid == u.uid) = (x.uid == u.uid) := by
    intro x
    by_cases hxu : (x.uid == u.uid) = true
    · simp [hxu, applyPasswordReset]
    · rw [Bool.not_eq_true] at hxu
      simp [hxu]
  have hfinduid2 : (updateUser (updateUser db u.uid (setResetToken tok now)) u.uid
      (applyPasswordReset (hash_password pw))).users.find? (fun w => w.uid == u.uid) =
      some (applyPasswordReset (hash_password pw) (setResetToken tok now u)) := by
    unfold updateUser
    rw [find?_map_of_pred _ _ (fun w => w.uid == u.uid) (fun w => w.uid == u.uid)
          (fun x _ => hpres2 x),
        find?_map_of_pred _ _ (fun w => w.uid == u.uid) (fun w => w.uid == u.uid)
          (fun x _ => hpres1 x),
        huidfind]
    simp [setResetToken, applyPasswordReset]
  have hnone2 : (updateUser (updateUser db u.uid (setResetToken tok now)) u.uid
      (applyPasswordReset (hash_password pw))).users.find?
      (fun w => w.reset_token == some tok) = none := by
    rw [List.find?_eq_none]
    intro x hx
    unfold updateUser at hx
    simp only [List.mem_map] at hx
    obtain ⟨z, hz, rfl⟩ := hx
    obtain ⟨y, hy, rfl⟩ := hz
    by_cases hyu : (y.uid == u.uid) = true
    · have hy_eq : y = u := huid y hy (by rwa [beq_iff_eq] at hyu)
      subst hy_eq
      simp [hyu, setResetToken, applyPasswordReset]
    · rw [Bool.not_eq_true] at hyu
      simp only [hyu, Bool.false_eq_true, if_false]
      rw [Bool.not_eq_true, beq_eq_false_iff_ne]
      exact hfresh y hy
  refine ⟨?_, hfinduid2, ?_⟩
  · rw [hdb1]
    exact hfirst
  · intro pw2 t3
    simp [reset_password, hnone2]

/-- Witness for C2: the verified demo user requests a reset with fresh token
at instant 0, resets once successfully at instant 10, and the second use of
the same token is rejected. -/
theorem C2_reset_token_single_use_witness :
    reset_password (forgot_password loginDemoDB "alice@example.com" "rtok-1" 0).1
        "rtok-1" "newpass123" 10 =
      .ok (updateUser (updateUser loginDemoDB 1 (setResetToken "rtok-1" 0)) 1
             (applyPasswordReset (hash_password "newpass123")), ResetSuccessMessage) ∧
    (updateUser (updateUser loginDemoDB 1 (setResetToken "rtok-1" 0)) 1
        (applyPasswordReset (hash_password "newpass123"))).users.find?
        (fun w => w.uid == 1) =
      some (applyPasswordReset (hash_password "newpass123")
              (setResetToken "rtok-1" 0 demoAlice)) ∧
    (∀ pw2 t3,
      reset_password
          (updateUser (updateUser loginDemoDB 1 (setResetToken "rtok-1" 0)) 1
            (applyPasswordReset (hash_password "newpass123"))) "rtok-1" pw2 t3 =
        .error (.badRequest "Invalid reset token")) :=
  C2_reset_token_single_use loginDemoDB "alice@example.com" "rtok-1" "newpass123" 0 10
    demoAlice rfl (by decide) (by decide) (by decide) (by decide)

end CalcApi
